import Mathlib

/-!
# SVGGauge (static/js/miner-app.js)

A shallow embedding of the radial gauge renderer of the mining dashboard.

* JavaScript numbers are modelled by an arbitrary linearly ordered field `K`
  (`ℚ` for evaluation, `ℝ` for the trigonometric statements).  Rounding error,
  `NaN` and the infinities of IEEE doubles are outside the model, and so is
  division by zero.
* The host library functions the class calls (`Math.cos`, `Math.sin`,
  `Math.PI`, the Number-to-String conversion used by `+` on strings and by
  `setAttribute`, the CSS parser of the `style.stroke` setter) are the fields of
  a `Runtime` record passed as a parameter.
* The DOM is a heap of nodes addressed by index; `setAttribute`,
  `appendChild`, `createElementNS`, `style.stroke` and `textContent` are
  explicit state-passing functions on that heap.
* Of the status poller `updateStatus` only the choice of the arguments of the
  two `update` calls is embedded (lines 473-492).
-/

namespace NodeMiner

/-! ## Host library -/

/-- Host functions used by the gauge: `Math.cos`, `Math.sin`, `Math.PI`, the
conversion of a number to a string, and the CSS parser behind the setter of
`style.stroke`: for a string that is a valid paint value its serialised form
(what reading `style.stroke` returns afterwards), `none` for any other string. -/
structure Runtime (K : Type) where
  cos : K → K
  sin : K → K
  PI : K
  toStr : K → String
  cssPaint : String → Option String

/-- Rounding as `Math.round` does: the nearest integer, halves rounded towards plus infinity. -/
def mathRound {K : Type} [LinearOrderedField K] [FloorRing K] (x : K) : ℤ :=
  ⌊x + 1 / 2⌋

/-! ## Configuration -/

/-- The merged configuration object `this.config`. -/
structure Config (K : Type) where
  max : K
  value : K
  dialStartAngle : K
  dialEndAngle : K
  radius : K
  label : K → String

/-- The caller-supplied `config` argument of the constructor: every key is
optional. -/
structure ConfigArg (K : Type) where
  max : Option K := none
  value : Option K := none
  dialStartAngle : Option K := none
  dialEndAngle : Option K := none
  radius : Option K := none
  label : Option (K → String) := none

/-- The defaults of the constructor (lines 12-19).  The default label returns
`Math.round(value)`, a number, which the `textContent` setter turns into a
string. -/
def defaultConfig {K : Type} [LinearOrderedField K] [FloorRing K]
    (rt : Runtime K) : Config K where
  max := 100
  value := 0
  dialStartAngle := 135
  dialEndAngle := 45
  radius := 80
  label := fun value => rt.toStr ((mathRound value : ℤ) : K)

/-- Merge as `Object.assign(defaults, config)` does: a key present in `config` replaces the
default. -/
def mergeConfig {K : Type} (defaults : Config K) (config : ConfigArg K) : Config K where
  max := config.max.getD defaults.max
  value := config.value.getD defaults.value
  dialStartAngle := config.dialStartAngle.getD defaults.dialStartAngle
  dialEndAngle := config.dialEndAngle.getD defaults.dialEndAngle
  radius := config.radius.getD defaults.radius
  label := config.label.getD defaults.label

/-! ## Geometry -/

/-- A point `{x, y}`. -/
structure Point (K : Type) where
  x : K
  y : K

/-- Method `polarToCartesian(centerX, centerY, radius, angle)` (lines 98-104). -/
def polarToCartesian {K : Type} [LinearOrderedField K] (rt : Runtime K)
    (centerX centerY radius angle : K) : Point K :=
  let rad := (angle - 90) * rt.PI / 180
  { x := centerX + radius * rt.cos rad
    y := centerY + radius * rt.sin rad }

/-- Method `getAngle(value, max)` (lines 71-82). -/
def getAngle {K : Type} [LinearOrderedField K] (config : Config K) (value max : K) : K :=
  let minAngle := config.dialStartAngle
  let maxAngle := config.dialEndAngle
  let range := maxAngle - minAngle
  let range := if range < 0 then range + 360 else range
  minAngle + (value / max) * range

/-- The local constants of `getArcPath` (lines 85-94): `start`, `end` (here
`stop`), the wrapped `diff` and `largeArc`. -/
structure ArcLocals (K : Type) where
  start : Point K
  stop : Point K
  diff : K
  largeArc : String

/-- Lines 85-94 of `getArcPath`: the values that go into the path string. -/
def getArcPathLocals {K : Type} [LinearOrderedField K] (rt : Runtime K)
    (x y radius startAngle endAngle : K) : ArcLocals K :=
  let start := polarToCartesian rt x y radius endAngle
  let stop := polarToCartesian rt x y radius startAngle
  let diff := endAngle - startAngle
  let diff := if diff < 0 then diff + 360 else diff
  let largeArc := if diff ≤ 180 then "0" else "1"
  { start := start, stop := stop, diff := diff, largeArc := largeArc }

/-- Method `getArcPath(x, y, radius, startAngle, endAngle)` (lines 84-96). -/
def getArcPath {K : Type} [LinearOrderedField K] (rt : Runtime K)
    (x y radius startAngle endAngle : K) : String :=
  let l := getArcPathLocals rt x y radius startAngle endAngle
  "M " ++ rt.toStr l.start.x ++ " " ++ rt.toStr l.start.y ++ " A " ++ rt.toStr radius ++ " "
    ++ rt.toStr radius ++ " 0 " ++ l.largeArc ++ " 0 " ++ rt.toStr l.stop.x ++ " "
    ++ rt.toStr l.stop.y

/-- Specification side, from the SVG path grammar the spec refers to: one
move-to followed by one elliptical arc,
`M x y A rx ry x-axis-rotation large-arc-flag sweep-flag x y`. -/
structure MoveArc (K : Type) where
  moveTo : Point K
  rx : K
  ry : K
  xAxisRotation : Nat
  largeArcFlag : Bool
  sweepFlag : Bool
  arcTo : Point K

/-- A flag of the arc command is written `1` or `0`. -/
def flagStr (b : Bool) : String := if b then "1" else "0"

/-- Path data of a `MoveArc`, fields separated by single spaces. -/
def MoveArc.toPathData {K : Type} (rt : Runtime K) (p : MoveArc K) : String :=
  String.intercalate " "
    ["M", rt.toStr p.moveTo.x, rt.toStr p.moveTo.y, "A", rt.toStr p.rx, rt.toStr p.ry,
     toString p.xAxisRotation, flagStr p.largeArcFlag, flagStr p.sweepFlag,
     rt.toStr p.arcTo.x, rt.toStr p.arcTo.y]

/-! ## DOM -/

/-- An element of the document: its namespace and tag, its attribute list in
insertion order, the `stroke` property of its inline style (the empty string
when unset), its text content and the ids of its child elements. -/
structure Node where
  namespaceURI : String
  tagName : String
  attributes : List (String × String)
  stroke : String
  textContent : String
  children : List Nat
  deriving DecidableEq, Repr

/-- The document: every element created so far; an element's id is its index. -/
abbrev Dom := List Node

/-- The SVG namespace URI passed to `createElementNS` on lines 33, 39 and 44. -/
def svgNS : String := "http://www.w3.org/2000/svg"

/-- Value of the attribute `name` in an attribute list. -/
def lookupAttr : List (String × String) → String → Option String
  | [], _ => none
  | (k, v) :: rest, name => if k = name then some v else lookupAttr rest name

/-- Attribute list after `setAttribute(name, value)`: an existing attribute
keeps its place and takes the new value, a new one is added at the end. -/
def storeAttr : List (String × String) → String → String → List (String × String)
  | [], name, value => [(name, value)]
  | (k, v) :: rest, name, value =>
    if k = name then (k, value) :: rest else (k, v) :: storeAttr rest name value

/-- Apply `f` to the element with id `id`. -/
def modifyNode (dom : Dom) (id : Nat) (f : Node → Node) : Dom :=
  match dom[id]? with
  | some n => dom.set id (f n)
  | none => dom

/-- The call `document.createElementNS(ns, tag)`: a fresh element without attributes,
style, text or children; returns the new document and the element's id. -/
def createElementNS (dom : Dom) (ns tag : String) : Dom × Nat :=
  (dom ++ [{ namespaceURI := ns, tagName := tag, attributes := [], stroke := "",
             textContent := "", children := [] }], dom.length)

/-- The call `el.setAttribute(name, value)`. -/
def setAttribute (dom : Dom) (el : Nat) (name value : String) : Dom :=
  modifyNode dom el (fun n => { n with attributes := storeAttr n.attributes name value })

/-- The call `el.getAttribute(name)`. -/
def getAttribute (dom : Dom) (el : Nat) (name : String) : Option String :=
  match dom[el]? with
  | some n => lookupAttr n.attributes name
  | none => none

/-- The call `parent.appendChild(child)`: the child leaves its current parent, if any,
and becomes the last child of `parent`. -/
def appendChild (dom : Dom) (parent child : Nat) : Dom :=
  let detached := dom.map (fun n => { n with children := n.children.filter (fun c => c ≠ child) })
  modifyNode detached parent (fun n => { n with children := n.children ++ [child] })

/-- The value of `style.stroke` after the assignment `style.stroke = color`,
given the value before: the empty string removes the property, a valid paint
value is stored in serialised form, any other string is ignored and the old
value stays. -/
def strokeValue (cssPaint : String → Option String) (color old : String) : String :=
  if color = "" then ""
  else
    match cssPaint color with
    | some paint => paint
    | none => old

/-- What the assignment `style.stroke = color` does to the element. -/
def strokeNode (cssPaint : String → Option String) (color : String) (n : Node) : Node :=
  { n with stroke := strokeValue cssPaint color n.stroke }

/-- The assignment `el.style.stroke = color`. -/
def setStroke (cssPaint : String → Option String) (dom : Dom) (el : Nat) (color : String) :
    Dom :=
  modifyNode dom el (strokeNode cssPaint color)

/-- The assignment `el.textContent = text`: the element's content becomes the text alone. -/
def setTextContent (dom : Dom) (el : Nat) (text : String) : Dom :=
  modifyNode dom el (fun n => { n with textContent := text, children := [] })

/-- Reading `el.style.stroke`. -/
def getStroke (dom : Dom) (el : Nat) : Option String :=
  (dom[el]?).map (fun n => n.stroke)

/-- Reading `el.textContent`. -/
def getTextContent (dom : Dom) (el : Nat) : Option String :=
  (dom[el]?).map (fun n => n.textContent)

/-- Reading `el.children`, as a list of ids. -/
def getChildren (dom : Dom) (el : Nat) : Option (List Nat) :=
  (dom[el]?).map (fun n => n.children)

/-- Reading `el.tagName`. -/
def getTag (dom : Dom) (el : Nat) : Option String :=
  (dom[el]?).map (fun n => n.tagName)

/-- Truthiness of the optional `color` argument in `if (color)`: an omitted
argument and the empty string are falsy. -/
def truthy : Option String → Bool
  | none => false
  | some c => c ≠ ""

/-! ## The gauge -/

/-- The fields of an `SVGGauge` instance: the host element, the merged
configuration, and the two elements `render` keeps a reference to. -/
structure SVGGauge (K : Type) where
  element : Nat
  config : Config K
  valuePath : Nat
  valueText : Nat

/-- The document together with one gauge instance living in it. -/
structure State (K : Type) where
  dom : Dom
  gauge : SVGGauge K

/-- Method `update(value, color)` (lines 55-69). -/
def update {K : Type} [LinearOrderedField K] (rt : Runtime K) (s : State K)
    (value : K) (color : Option String) : State K :=
  let centerX : K := 100
  let centerY : K := 100
  let angle := getAngle s.gauge.config value s.gauge.config.max
  let valuePath := getArcPath rt centerX centerY s.gauge.config.radius
    s.gauge.config.dialStartAngle angle
  let dom := setAttribute s.dom s.gauge.valuePath "d" valuePath
  let dom :=
    if truthy color then setStroke rt.cssPaint dom s.gauge.valuePath (color.getD "") else dom
  let dom := setTextContent dom s.gauge.valueText (s.gauge.config.label value)
  { s with dom := dom }

/-- Method `render()` (lines 24-53), run on the instance whose `element` and `config`
the constructor has just assigned; it assigns `valuePath` and `valueText`. -/
def render {K : Type} [LinearOrderedField K] (rt : Runtime K) (dom : Dom)
    (element : Nat) (config : Config K) : State K :=
  let centerX : K := 100
  let centerY : K := 100
  let dom := setAttribute dom element "viewBox" "0 0 200 200"
  -- Background dial
  let dialPath := getArcPath rt centerX centerY config.radius
    config.dialStartAngle config.dialEndAngle
  let (dom, dial) := createElementNS dom svgNS "path"
  let dom := setAttribute dom dial "class" "dial"
  let dom := setAttribute dom dial "d" dialPath
  let dom := appendChild dom element dial
  -- Value arc
  let (dom, valuePath) := createElementNS dom svgNS "path"
  let dom := setAttribute dom valuePath "class" "value"
  let dom := appendChild dom element valuePath
  -- Value text
  let (dom, valueText) := createElementNS dom svgNS "text"
  let dom := setAttribute dom valueText "x" (rt.toStr centerX)
  let dom := setAttribute dom valueText "y" (rt.toStr (centerY + 10))
  let dom := setAttribute dom valueText "class" "value-text"
  let dom := setAttribute dom valueText "text-anchor" "middle"
  let dom := setAttribute dom valueText "alignment-baseline" "middle"
  let dom := appendChild dom element valueText
  update rt
    { dom := dom
      gauge := { element := element, config := config, valuePath := valuePath,
                 valueText := valueText } }
    config.value none

/-- The constructor, `new SVGGauge(element, config)` (lines 10-22). -/
def SVGGauge.constructor {K : Type} [LinearOrderedField K] [FloorRing K] (rt : Runtime K)
    (dom : Dom) (element : Nat) (config : ConfigArg K) : State K :=
  render rt dom element (mergeConfig (defaultConfig rt) config)

/-- A sequence of `update(value, color)` calls, in order. -/
def updates {K : Type} [LinearOrderedField K] (rt : Runtime K) (s : State K) :
    List (K × Option String) → State K
  | [] => s
  | (value, color) :: rest => updates rt (update rt s value color) rest

/-- What one `update` call does to a single element, given whether the element
is the value path and whether it is the value text: the writes of lines 62, 65
and 68 in order. -/
def updateNode (cssPaint : String → Option String) (path : String) (color : Option String)
    (text : String) (isPath isText : Bool) (n : Node) : Node :=
  let n := if isPath then { n with attributes := storeAttr n.attributes "d" path } else n
  let n := if isPath && truthy color then strokeNode cssPaint (color.getD "") n else n
  if isText then { n with textContent := text, children := [] } else n

/-- Shape of a state reached from `render rt dom el cfg` by `update` calls: the
gauge fields are those `render` assigned, every element other than the value
path and the value text is as `render` left it, and these two differ from
what `render` built only in the path data and stroke, and in the text. -/
structure Constructed {K : Type} [LinearOrderedField K] (rt : Runtime K) (dom : Dom)
    (el : Nat) (cfg : Config K) (s : State K) : Prop where
  gauge : s.gauge =
    { element := el, config := cfg, valuePath := dom.length + 1, valueText := dom.length + 2 }
  length : s.dom.length = dom.length + 3
  frame : ∀ j, j ≠ dom.length + 1 → j ≠ dom.length + 2 →
    s.dom[j]? = (render rt dom el cfg).dom[j]?
  valuePath : ∃ path stroke, s.dom[dom.length + 1]? =
    some { namespaceURI := svgNS, tagName := "path",
           attributes := [("class", "value"), ("d", path)], stroke := stroke,
           textContent := "", children := [] }
  valueText : ∃ text, s.dom[dom.length + 2]? =
    some { namespaceURI := svgNS, tagName := "text",
           attributes := [("x", rt.toStr 100), ("y", rt.toStr (100 + 10)),
             ("class", "value-text"), ("text-anchor", "middle"),
             ("alignment-baseline", "middle")],
           stroke := "", textContent := text, children := [] }

/-- A CSS parser for evaluation: the colours the dashboard passes to `update`
and the keyword `red`, with their serialised forms; every other string is
treated as not valid. -/
def sampleCssPaint (color : String) : Option String :=
  if color = "#00f2c3" then some "rgb(0, 242, 195)"
  else if color = "#ffc107" then some "rgb(255, 193, 7)"
  else if color = "#fd5d93" then some "rgb(253, 93, 147)"
  else if color = "#334455" then some "rgb(51, 68, 85)"
  else if color = "red" then some "red"
  else none

/-- A runtime over the rationals for evaluation: constant trigonometry, a
formatter that prints numerator and denominator, and `sampleCssPaint`. -/
def sampleRuntime : Runtime ℚ where
  cos := fun _ => 1
  sin := fun _ => 0
  PI := 22 / 7
  toStr := fun q => toString q.num ++ "/" ++ toString q.den
  cssPaint := sampleCssPaint

/-- A document holding one empty `svg` element, with id 0. -/
def sampleDom : Dom :=
  [{ namespaceURI := svgNS, tagName := "svg", attributes := [],
     stroke := "", textContent := "", children := [] }]

/-- The default gauge built on `sampleDom`: dial 1, value path 2, text 3. -/
def sampleGauge : State ℚ := SVGGauge.constructor sampleRuntime sampleDom 0 {}

/-- A runtime over the rationals that prints an integer-valued number in
decimal, as the Number-to-String conversion does, and other rationals as a
fraction. -/
def decimalRuntime : Runtime ℚ where
  cos := fun _ => 1
  sin := fun _ => 0
  PI := 22 / 7
  toStr := fun q =>
    if q.den = 1 then toString q.num else toString q.num ++ "/" ++ toString q.den
  cssPaint := sampleCssPaint

/-- The configuration argument of the end-to-end example:
`{max: 100, dialStartAngle: 135, dialEndAngle: 45, radius: 80}`. -/
def exampleConfigArg (K : Type) [LinearOrderedField K] : ConfigArg K where
  max := some 100
  dialStartAngle := some 135
  dialEndAngle := some 45
  radius := some 80

/-! ## Status poller -/

/-- The arguments `updateStatus` passes to `cpuUsageGauge.update` (lines 474-479):
the live CPU usage and the colour chosen from it. -/
def cpuUsageUpdateArgs {K : Type} [LinearOrderedField K] (cpu_usage_live : K) :
    K × Option String :=
  let cpuValue := cpu_usage_live
  let color := "#00f2c3"
  let color := if cpuValue ≥ 80 then "#fd5d93" else if cpuValue ≥ 60 then "#ffc107" else color
  (cpuValue, some color)

/-- The arguments `updateStatus` passes to `cpuTempGauge.update` (lines 483-492):
for a temperature that is not `null` the temperature and the colour chosen from
it, otherwise 0 and `'#334455'`. -/
def cpuTempUpdateArgs {K : Type} [LinearOrderedField K] (cpu_temp : Option K) :
    K × Option String :=
  match cpu_temp with
  | some tempValue =>
    let color := "#00f2c3"
    let color :=
      if tempValue ≥ 90 then "#fd5d93" else if tempValue ≥ 75 then "#ffc107" else color
    (tempValue, some color)
  | none => (0, some "#334455")

/-! ## Theorems -/

section Angles

variable {K : Type} [LinearOrderedField K]

/-- C1: for every configuration with start angle `s` and end angle `e`, and every
value `v` and maximum `m ≠ 0`, `getAngle v m = s + (v / m) * range` where `range`
is `e - s` when that is non-negative and `e - s + 360` otherwise; with `s = 135`
and `e = 45` the range is `270` and `getAngle 50 100 = 270`. -/
theorem getAngle_eq_interpolation (config : Config K) (v m : K) (hm : m ≠ 0) :
    getAngle config v m =
        config.dialStartAngle + (v / m) *
          (if 0 ≤ config.dialEndAngle - config.dialStartAngle
            then config.dialEndAngle - config.dialStartAngle
            else config.dialEndAngle - config.dialStartAngle + 360)
      ∧ (if (0 : K) ≤ 45 - 135 then (45 : K) - 135 else 45 - 135 + 360) = 270
      ∧ getAngle { config with dialStartAngle := 135, dialEndAngle := 45 } 50 100 = 270 := by
  have _ := hm
  refine ⟨?_, ?_, ?_⟩
  · unfold getAngle
    by_cases h : config.dialEndAngle - config.dialStartAngle < 0
    · simp [h, not_le.mpr h]
    · simp [h, not_lt.mp h]
  · norm_num
  · unfold getAngle
    norm_num

/-- Witness of C1 on the default dial: `getAngle 75 100 = 135 + 0.75 * 270`. -/
theorem getAngle_eq_interpolation_witness :
    (100 : ℚ) ≠ 0 ∧ getAngle (defaultConfig sampleRuntime) 75 100 = 675 / 2 :=
  ⟨by norm_num, by
    rw [(getAngle_eq_interpolation (defaultConfig sampleRuntime) 75 100 (by norm_num)).1]
    norm_num [defaultConfig]⟩

/-- The wrapped range of `getAngle` lies between 0 and 360 when both dial angles
lie in `[0, 360)`. -/
theorem wrapped_range_bounds (s e : K) (hs0 : 0 ≤ s) (hs : s < 360) (he0 : 0 ≤ e)
    (he : e < 360) :
    0 ≤ (if e - s < 0 then e - s + 360 else e - s)
      ∧ (if e - s < 0 then e - s + 360 else e - s) < 360 := by
  by_cases h : e - s < 0
  · simp only [h, if_true]
    constructor <;> linarith
  · simp only [h, if_false]
    constructor <;> linarith

/-- C2: with both dial angles in `[0, 360)`, `m > 0` and `0 ≤ v ≤ m`, the angle
lies in the span swept from `s` to `e`: `s ≤ getAngle v m ≤ s + range` with
`range` the wrapped difference of `e` and `s`; moreover `getAngle 0 m = s` and
`getAngle m m` is congruent to `e` modulo 360. -/
theorem getAngle_within_span (config : Config K) (v m : K)
    (hs0 : 0 ≤ config.dialStartAngle) (hs : config.dialStartAngle < 360)
    (he0 : 0 ≤ config.dialEndAngle) (he : config.dialEndAngle < 360)
    (hm : 0 < m) (hv0 : 0 ≤ v) (hv : v ≤ m) :
    config.dialStartAngle ≤ getAngle config v m
      ∧ getAngle config v m ≤ config.dialStartAngle +
          (if config.dialEndAngle - config.dialStartAngle < 0
            then config.dialEndAngle - config.dialStartAngle + 360
            else config.dialEndAngle - config.dialStartAngle)
      ∧ getAngle config 0 m = config.dialStartAngle
      ∧ ∃ k : ℤ, getAngle config m m = config.dialEndAngle + 360 * (k : K) := by
  obtain ⟨hr0, _⟩ := wrapped_range_bounds _ _ hs0 hs he0 he
  have hq0 : 0 ≤ v / m := div_nonneg hv0 hm.le
  have hq1 : v / m ≤ 1 := (div_le_one hm).mpr hv
  have hmm : m / m = 1 := div_self hm.ne.symm
  refine ⟨?_, ?_, ?_, ?_⟩
  · unfold getAngle
    have := mul_nonneg hq0 hr0
    linarith
  · unfold getAngle
    have := mul_le_of_le_one_left hr0 hq1
    linarith
  · unfold getAngle
    simp
  · unfold getAngle
    by_cases h : config.dialEndAngle - config.dialStartAngle < 0
    · refine ⟨1, ?_⟩
      simp only [h, if_true, hmm]
      push_cast
      ring
    · refine ⟨0, ?_⟩
      simp only [h, if_false, hmm]
      push_cast
      ring

/-- Witness of C2 on the default dial (start 135, end 45) at half scale. -/
theorem getAngle_within_span_witness :
    (135 : ℚ) ≤ getAngle (defaultConfig sampleRuntime) 50 100
      ∧ getAngle (defaultConfig sampleRuntime) 50 100 ≤ 135 + 270
      ∧ getAngle (defaultConfig sampleRuntime) 0 100 = 135
      ∧ ∃ k : ℤ, getAngle (defaultConfig sampleRuntime) 100 100 = 45 + 360 * (k : ℚ) := by
  have h := getAngle_within_span (defaultConfig sampleRuntime) 50 100
    (by norm_num [defaultConfig]) (by norm_num [defaultConfig])
    (by norm_num [defaultConfig]) (by norm_num [defaultConfig])
    (by norm_num) (by norm_num) (by norm_num)
  norm_num [defaultConfig] at h ⊢
  exact h

end Angles

section Arc

variable {K : Type} [LinearOrderedField K]

/-- The flag string computed on line 94 is the serialisation of the comparison
`180 < diff`. -/
theorem largeArc_eq_flagStr (rt : Runtime K) (x y r a b : K) :
    (getArcPathLocals rt x y r a b).largeArc
      = flagStr (decide (180 < (getArcPathLocals rt x y r a b).diff)) := by
  unfold getArcPathLocals flagStr
  simp only [decide_eq_true_eq]
  by_cases h : (if b - a < 0 then b - a + 360 else b - a) ≤ 180
  · rw [if_pos h, if_neg (not_lt.mpr h)]
  · rw [if_neg h, if_pos (not_le.mp h)]

/-- Joining literal and computed pieces with single spaces, as line 95 does. -/
theorem toPathData_eq {K : Type} (rt : Runtime K) (p : MoveArc K) :
    p.toPathData rt =
      "M " ++ rt.toStr p.moveTo.x ++ " " ++ rt.toStr p.moveTo.y ++ " A " ++ rt.toStr p.rx
        ++ " " ++ rt.toStr p.ry ++ " " ++ toString p.xAxisRotation ++ " "
        ++ flagStr p.largeArcFlag ++ " " ++ flagStr p.sweepFlag ++ " "
        ++ rt.toStr p.arcTo.x ++ " " ++ rt.toStr p.arcTo.y := by
  simp [MoveArc.toPathData, String.intercalate, String.intercalate.go, String.append_assoc]

/-- C3: `getArcPath x y r a b` is one move-to followed by one circular arc drawn
in reverse: the move-to point is the point of the END angle `b`, the arc ends
at the point of the START angle `a`, both radii are `r`, the x-axis rotation is
0 and the sweep flag is 0; the string is `M bx by A r r 0 F 0 ax ay` with `F`
the large-arc flag. -/
theorem getArcPath_reversed_arc (rt : Runtime K) (x y r a b : K) :
    (getArcPathLocals rt x y r a b).start = polarToCartesian rt x y r b
      ∧ (getArcPathLocals rt x y r a b).stop = polarToCartesian rt x y r a
      ∧ ∃ F : Bool,
          getArcPath rt x y r a b =
              MoveArc.toPathData rt
                { moveTo := polarToCartesian rt x y r b, rx := r, ry := r, xAxisRotation := 0,
                  largeArcFlag := F, sweepFlag := false,
                  arcTo := polarToCartesian rt x y r a }
            ∧ getArcPath rt x y r a b =
              "M " ++ rt.toStr (polarToCartesian rt x y r b).x ++ " "
                ++ rt.toStr (polarToCartesian rt x y r b).y ++ " A " ++ rt.toStr r ++ " "
                ++ rt.toStr r ++ " 0 " ++ flagStr F ++ " 0 "
                ++ rt.toStr (polarToCartesian rt x y r a).x ++ " "
                ++ rt.toStr (polarToCartesian rt x y r a).y := by
  refine ⟨rfl, rfl, decide (180 < (getArcPathLocals rt x y r a b).diff), ?_, ?_⟩
  · rw [toPathData_eq]
    unfold getArcPath
    simp only [largeArc_eq_flagStr]
    have h0 : toString (0 : Nat) = "0" := rfl
    simp [getArcPathLocals, flagStr, String.append_assoc, h0]
  · unfold getArcPath
    simp only [largeArc_eq_flagStr]
    rfl

/-- The string `getArcPath` returns, with the flag written as a test on the
once-wrapped difference of the two angles. -/
theorem getArcPath_eq_string (rt : Runtime K) (x y r a b : K) :
    getArcPath rt x y r a b =
      "M " ++ rt.toStr (polarToCartesian rt x y r b).x ++ " "
        ++ rt.toStr (polarToCartesian rt x y r b).y ++ " A " ++ rt.toStr r ++ " "
        ++ rt.toStr r ++ " 0 "
        ++ (if 180 < (if 0 ≤ b - a then b - a else b - a + 360) then "1" else "0") ++ " 0 "
        ++ rt.toStr (polarToCartesian rt x y r a).x ++ " "
        ++ rt.toStr (polarToCartesian rt x y r a).y := by
  have hd : (if b - a < 0 then b - a + 360 else b - a)
      = (if 0 ≤ b - a then b - a else b - a + 360) := by
    by_cases h : b - a < 0
    · simp only [if_pos h, if_neg (not_le.mpr h)]
    · simp only [if_neg h, if_pos (not_lt.mp h)]
  have hf : (if (if 0 ≤ b - a then b - a else b - a + 360) ≤ 180 then "0" else "1")
      = (if 180 < (if 0 ≤ b - a then b - a else b - a + 360) then "1" else "0") := by
    by_cases h : (if 0 ≤ b - a then b - a else b - a + 360) ≤ 180
    · rw [if_pos h, if_neg (not_lt.mpr h)]
    · rw [if_neg h, if_pos (not_le.mp h)]
  unfold getArcPath getArcPathLocals
  simp only [hd, hf]

/-- C4: the large-arc flag emitted by `getArcPath` is `1` exactly when
`diff > 180` and `0` otherwise, where `diff` is `b - a` when that is
non-negative and `b - a + 360` otherwise (360 is added once); `diff = 270`
gives `1`, `diff = 90` gives `0` and `diff = 180` gives `0`.  The flag is read
in the returned string itself: `getArcPath` returns `M bx by A r r 0 F 0 ax ay`
with `F` that test on `diff`, which is the path data of the arc whose large-arc
flag is `diff > 180`. -/
theorem largeArc_iff (rt : Runtime K) (x y r a b : K) :
    getArcPath rt x y r a b =
        "M " ++ rt.toStr (polarToCartesian rt x y r b).x ++ " "
          ++ rt.toStr (polarToCartesian rt x y r b).y ++ " A " ++ rt.toStr r ++ " "
          ++ rt.toStr r ++ " 0 "
          ++ (if 180 < (if 0 ≤ b - a then b - a else b - a + 360) then "1" else "0") ++ " 0 "
          ++ rt.toStr (polarToCartesian rt x y r a).x ++ " "
          ++ rt.toStr (polarToCartesian rt x y r a).y
      ∧ getArcPath rt x y r a b =
        MoveArc.toPathData rt
          { moveTo := polarToCartesian rt x y r b, rx := r, ry := r, xAxisRotation := 0,
            largeArcFlag := decide (180 < (if 0 ≤ b - a then b - a else b - a + 360)),
            sweepFlag := false, arcTo := polarToCartesian rt x y r a }
      ∧ getArcPath rt x y r a (a + 270) =
        "M " ++ rt.toStr (polarToCartesian rt x y r (a + 270)).x ++ " "
          ++ rt.toStr (polarToCartesian rt x y r (a + 270)).y ++ " A " ++ rt.toStr r ++ " "
          ++ rt.toStr r ++ " 0 " ++ "1" ++ " 0 "
          ++ rt.toStr (polarToCartesian rt x y r a).x ++ " "
          ++ rt.toStr (polarToCartesian rt x y r a).y
      ∧ getArcPath rt x y r a (a + 90) =
        "M " ++ rt.toStr (polarToCartesian rt x y r (a + 90)).x ++ " "
          ++ rt.toStr (polarToCartesian rt x y r (a + 90)).y ++ " A " ++ rt.toStr r ++ " "
          ++ rt.toStr r ++ " 0 " ++ "0" ++ " 0 "
          ++ rt.toStr (polarToCartesian rt x y r a).x ++ " "
          ++ rt.toStr (polarToCartesian rt x y r a).y
      ∧ getArcPath rt x y r a (a + 180) =
        "M " ++ rt.toStr (polarToCartesian rt x y r (a + 180)).x ++ " "
          ++ rt.toStr (polarToCartesian rt x y r (a + 180)).y ++ " A " ++ rt.toStr r ++ " "
          ++ rt.toStr r ++ " 0 " ++ "0" ++ " 0 "
          ++ rt.toStr (polarToCartesian rt x y r a).x ++ " "
          ++ rt.toStr (polarToCartesian rt x y r a).y
      ∧ (getArcPathLocals rt x y r a b).diff = (if 0 ≤ b - a then b - a else b - a + 360)
      ∧ ((getArcPathLocals rt x y r a b).largeArc = "1"
          ↔ 180 < (if 0 ≤ b - a then b - a else b - a + 360))
      ∧ ((getArcPathLocals rt x y r a b).largeArc = "0"
          ↔ (if 0 ≤ b - a then b - a else b - a + 360) ≤ 180)
      ∧ (getArcPathLocals rt x y r a (a + 270)).largeArc = "1"
      ∧ (getArcPathLocals rt x y r a (a - 90)).largeArc = "1"
      ∧ (getArcPathLocals rt x y r a (a + 90)).largeArc = "0"
      ∧ (getArcPathLocals rt x y r a (a - 270)).largeArc = "0"
      ∧ (getArcPathLocals rt x y r a (a + 180)).largeArc = "0"
      ∧ (getArcPathLocals rt x y r a (a - 180)).largeArc = "0" := by
  have hd : ∀ a b : K, (getArcPathLocals rt x y r a b).diff
      = (if 0 ≤ b - a then b - a else b - a + 360) := by
    intro a b
    unfold getArcPathLocals
    by_cases h : b - a < 0
    · simp only [if_pos h, if_neg (not_le.mpr h)]
    · simp only [if_neg h, if_pos (not_lt.mp h)]
  have h1 : ∀ a b : K, ((getArcPathLocals rt x y r a b).largeArc = "1"
      ↔ 180 < (if 0 ≤ b - a then b - a else b - a + 360)) := by
    intro a b
    rw [largeArc_eq_flagStr, hd]
    unfold flagStr
    by_cases h : 180 < (if 0 ≤ b - a then b - a else b - a + 360)
    · simp [h]
    · simp [h]
  have h0 : ∀ a b : K, ((getArcPathLocals rt x y r a b).largeArc = "0"
      ↔ (if 0 ≤ b - a then b - a else b - a + 360) ≤ 180) := by
    intro a b
    rw [largeArc_eq_flagStr, hd]
    unfold flagStr
    by_cases h : 180 < (if 0 ≤ b - a then b - a else b - a + 360)
    · simp [h]
    · simp [h, not_lt.mp h]
  have hs270 : (if 180 < (if (0 : K) ≤ a + 270 - a then a + 270 - a else a + 270 - a + 360)
      then "1" else "0") = "1" := by norm_num
  have hs90 : (if 180 < (if (0 : K) ≤ a + 90 - a then a + 90 - a else a + 90 - a + 360)
      then "1" else "0") = "0" := by norm_num
  have hs180 : (if 180 < (if (0 : K) ≤ a + 180 - a then a + 180 - a else a + 180 - a + 360)
      then "1" else "0") = "0" := by norm_num
  refine ⟨getArcPath_eq_string rt x y r a b, ?_, ?_, ?_, ?_,
    hd a b, h1 a b, h0 a b, ?_, ?_, ?_, ?_, ?_, ?_⟩
  · rw [toPathData_eq, getArcPath_eq_string]
    have hz : toString (0 : Nat) = "0" := rfl
    by_cases h : 180 < (if 0 ≤ b - a then b - a else b - a + 360)
    · simp [flagStr, String.append_assoc, hz, h]
    · simp [flagStr, String.append_assoc, hz, h]
  · rw [getArcPath_eq_string, hs270]
  · rw [getArcPath_eq_string, hs90]
  · rw [getArcPath_eq_string, hs180]
  · rw [h1]; norm_num
  · rw [h1]; norm_num
  · rw [h0]; norm_num
  · rw [h0]; norm_num
  · rw [h0]; norm_num
  · rw [h0]; norm_num

end Arc

section RealTrig

/-- C5: over the reals `polarToCartesian cx cy r a` is
`(cx + r cos((a - 90)π/180), cy + r sin((a - 90)π/180))`; angle 0 maps to
`(cx, cy - r)`, angle 90 to `(cx + r, cy)`, angle 180 to `(cx, cy + r)`; every
returned point lies on the circle `(x - cx)² + (y - cy)² = r²`, so for a radius
`r ≥ 0` it is at distance `r` from the center (and at distance `|r|` whatever the
sign of the number passed as radius). -/
theorem polarToCartesian_on_circle (toStr : ℝ → String) (css : String → Option String)
    (cx cy r a : ℝ) :
    (polarToCartesian ⟨Real.cos, Real.sin, Real.pi, toStr, css⟩ cx cy r a).x
        = cx + r * Real.cos ((a - 90) * Real.pi / 180)
      ∧ (polarToCartesian ⟨Real.cos, Real.sin, Real.pi, toStr, css⟩ cx cy r a).y
        = cy + r * Real.sin ((a - 90) * Real.pi / 180)
      ∧ (polarToCartesian ⟨Real.cos, Real.sin, Real.pi, toStr, css⟩ cx cy r 0).x = cx
      ∧ (polarToCartesian ⟨Real.cos, Real.sin, Real.pi, toStr, css⟩ cx cy r 0).y = cy - r
      ∧ (polarToCartesian ⟨Real.cos, Real.sin, Real.pi, toStr, css⟩ cx cy r 90).x = cx + r
      ∧ (polarToCartesian ⟨Real.cos, Real.sin, Real.pi, toStr, css⟩ cx cy r 90).y = cy
      ∧ (polarToCartesian ⟨Real.cos, Real.sin, Real.pi, toStr, css⟩ cx cy r 180).x = cx
      ∧ (polarToCartesian ⟨Real.cos, Real.sin, Real.pi, toStr, css⟩ cx cy r 180).y = cy + r
      ∧ ((polarToCartesian ⟨Real.cos, Real.sin, Real.pi, toStr, css⟩ cx cy r a).x - cx) ^ 2
          + ((polarToCartesian ⟨Real.cos, Real.sin, Real.pi, toStr, css⟩ cx cy r a).y - cy) ^ 2
          = r ^ 2
      ∧ Real.sqrt
          (((polarToCartesian ⟨Real.cos, Real.sin, Real.pi, toStr, css⟩ cx cy r a).x - cx) ^ 2
            + ((polarToCartesian ⟨Real.cos, Real.sin, Real.pi, toStr, css⟩ cx cy r a).y
                - cy) ^ 2)
          = |r|
      ∧ (0 ≤ r →
          Real.sqrt
            (((polarToCartesian ⟨Real.cos, Real.sin, Real.pi, toStr, css⟩ cx cy r a).x - cx) ^ 2
              + ((polarToCartesian ⟨Real.cos, Real.sin, Real.pi, toStr, css⟩ cx cy r a).y
                  - cy) ^ 2)
            = r) := by
  have h0 : ((0 : ℝ) - 90) * Real.pi / 180 = -(Real.pi / 2) := by ring
  have h90 : ((90 : ℝ) - 90) * Real.pi / 180 = 0 := by ring
  have h180 : ((180 : ℝ) - 90) * Real.pi / 180 = Real.pi / 2 := by ring
  have hsq : ((polarToCartesian ⟨Real.cos, Real.sin, Real.pi, toStr, css⟩ cx cy r a).x - cx) ^ 2
      + ((polarToCartesian ⟨Real.cos, Real.sin, Real.pi, toStr, css⟩ cx cy r a).y - cy) ^ 2
      = r ^ 2 := by
    simp only [polarToCartesian]
    have := Real.cos_sq_add_sin_sq ((a - 90) * Real.pi / 180)
    linear_combination r ^ 2 * this
  refine ⟨rfl, rfl, ?_, ?_, ?_, ?_, ?_, ?_, hsq, ?_, ?_⟩
  · simp only [polarToCartesian, h0, Real.cos_neg, Real.cos_pi_div_two]; ring
  · simp only [polarToCartesian, h0, Real.sin_neg, Real.sin_pi_div_two]; ring
  · simp only [polarToCartesian, h90, Real.cos_zero]; ring
  · simp only [polarToCartesian, h90, Real.sin_zero]; ring
  · simp only [polarToCartesian, h180, Real.cos_pi_div_two]; ring
  · simp only [polarToCartesian, h180, Real.sin_pi_div_two]; ring
  · rw [hsq]
    exact Real.sqrt_sq_eq_abs r
  · intro hr
    have hpair : ((polarToCartesian ⟨Real.cos, Real.sin, Real.pi, toStr, css⟩ cx cy r a).x
          - cx) ^ 2
        + ((polarToCartesian ⟨Real.cos, Real.sin, Real.pi, toStr, css⟩ cx cy r a).y
          - cy) ^ 2 = r ^ 2 := hsq
    rw [hpair]
    exact Real.sqrt_sq hr

/-- Witness of C5: the gauge's radius 80 around the center `(100, 100)`, at the
default start angle 135. -/
theorem polarToCartesian_on_circle_witness :
    (0 : ℝ) ≤ 80
      ∧ Real.sqrt
          (((polarToCartesian ⟨Real.cos, Real.sin, Real.pi, fun _ => "", fun _ => none⟩
                100 100 80 135).x - 100) ^ 2
            + ((polarToCartesian ⟨Real.cos, Real.sin, Real.pi, fun _ => "", fun _ => none⟩
                100 100 80 135).y - 100) ^ 2)
          = 80 :=
  ⟨by norm_num,
    (polarToCartesian_on_circle (fun _ => "") (fun _ => none) 100 100 80 135).2.2.2.2.2.2.2.2.2.2
      (by norm_num)⟩

end RealTrig

section DomLemmas

theorem lookupAttr_storeAttr_same (attrs : List (String × String)) (name value : String) :
    lookupAttr (storeAttr attrs name value) name = some value := by
  induction attrs with
  | nil => simp [storeAttr, lookupAttr]
  | cons p rest ih =>
    obtain ⟨k, v⟩ := p
    by_cases h : k = name
    · simp [storeAttr, lookupAttr, h]
    · simp [storeAttr, lookupAttr, h, ih]

theorem lookupAttr_storeAttr_other (attrs : List (String × String))
    (name value other : String) (h : other ≠ name) :
    lookupAttr (storeAttr attrs name value) other = lookupAttr attrs other := by
  induction attrs with
  | nil => simp [storeAttr, lookupAttr, h.symm]
  | cons p rest ih =>
    obtain ⟨k, v⟩ := p
    by_cases hk : k = name
    · subst hk
      simp [storeAttr, lookupAttr, h.symm]
    · by_cases hko : k = other
      · subst hko
        simp [storeAttr, lookupAttr, hk]
      · simp [storeAttr, lookupAttr, hk, hko, ih]

theorem storeAttr_storeAttr (attrs : List (String × String)) (name v w : String) :
    storeAttr (storeAttr attrs name v) name w = storeAttr attrs name w := by
  induction attrs with
  | nil => simp [storeAttr]
  | cons p rest ih =>
    obtain ⟨k, x⟩ := p
    by_cases h : k = name
    · simp [storeAttr, h]
    · simp [storeAttr, h, ih]

theorem length_modifyNode (dom : Dom) (id : Nat) (f : Node → Node) :
    (modifyNode dom id f).length = dom.length := by
  unfold modifyNode
  cases dom[id]? <;> simp

theorem getElem?_modifyNode (dom : Dom) (id : Nat) (f : Node → Node) (j : Nat) :
    (modifyNode dom id f)[j]? = if j = id then (dom[j]?).map f else dom[j]? := by
  unfold modifyNode
  by_cases hj : j = id
  · subst hj
    cases h : dom[j]? with
    | none => simp [h]
    | some n =>
      have hlt : j < dom.length := (List.getElem?_eq_some.mp h).1
      simp [List.getElem?_set, hlt]
  · cases h : dom[id]? with
    | none => simp [hj]
    | some n => simp [hj, List.getElem?_set_ne (Ne.symm hj)]

theorem getElem?_modifyNode_cond (dom : Dom) (id : Nat) (f : Node → Node) (j : Nat) :
    (modifyNode dom id f)[j]? = (dom[j]?).map (fun n => cond (decide (j = id)) (f n) n) := by
  rw [getElem?_modifyNode]
  by_cases h : j = id
  · simp [h]
  · simp [h]

theorem strokeValue_idem (cssPaint : String → Option String) (color old : String) :
    strokeValue cssPaint color (strokeValue cssPaint color old)
      = strokeValue cssPaint color old := by
  unfold strokeValue
  by_cases h : color = ""
  · simp [h]
  · cases hc : cssPaint color <;> simp [h]

theorem updateNode_idem (cssPaint : String → Option String) (path : String)
    (color : Option String) (text : String) (isPath isText : Bool) (n : Node) :
    updateNode cssPaint path color text isPath isText
        (updateNode cssPaint path color text isPath isText n)
      = updateNode cssPaint path color text isPath isText n := by
  cases isPath <;> cases isText <;> cases h : truthy color <;>
    simp [updateNode, strokeNode, h, storeAttr_storeAttr, strokeValue_idem]

theorem getElem?_setAttribute (dom : Dom) (el : Nat) (name value : String) (j : Nat) :
    (setAttribute dom el name value)[j]? =
      (dom[j]?).map (fun n =>
        cond (decide (j = el)) { n with attributes := storeAttr n.attributes name value } n) := by
  unfold setAttribute
  rw [getElem?_modifyNode_cond]

theorem getElem?_appendChild (dom : Dom) (parent child : Nat) (j : Nat) :
    (appendChild dom parent child)[j]? =
      (dom[j]?).map (fun n =>
        cond (decide (j = parent))
          { n with children := n.children.filter (fun c => c ≠ child) ++ [child] }
          { n with children := n.children.filter (fun c => c ≠ child) }) := by
  unfold appendChild
  simp only [getElem?_modifyNode_cond, List.getElem?_map, Option.map_map]
  cases decide (j = parent) <;> cases dom[j]? <;> simp

theorem length_setAttribute (dom : Dom) (el : Nat) (name value : String) :
    (setAttribute dom el name value).length = dom.length := by
  unfold setAttribute
  rw [length_modifyNode]

theorem length_appendChild (dom : Dom) (parent child : Nat) :
    (appendChild dom parent child).length = dom.length := by
  unfold appendChild
  simp [length_modifyNode]

end DomLemmas

section Update

variable {K : Type} [LinearOrderedField K]

/-- Element-wise description of `update`. -/
theorem getElem?_update (rt : Runtime K) (s : State K) (v : K) (c : Option String) (j : Nat) :
    (update rt s v c).dom[j]? =
      (s.dom[j]?).map
        (updateNode rt.cssPaint
          (getArcPath rt 100 100 s.gauge.config.radius s.gauge.config.dialStartAngle
            (getAngle s.gauge.config v s.gauge.config.max))
          c (s.gauge.config.label v) (decide (j = s.gauge.valuePath))
          (decide (j = s.gauge.valueText))) := by
  unfold update
  simp only [setTextContent, setStroke, setAttribute]
  cases hc : truthy c
  · simp only [Bool.false_eq_true, if_false, getElem?_modifyNode_cond, Option.map_map]
    generalize decide (j = s.gauge.valuePath) = bp
    generalize decide (j = s.gauge.valueText) = bt
    cases bp <;> cases bt <;> cases s.dom[j]? <;> simp [updateNode, hc]
  · simp only [if_true, getElem?_modifyNode_cond, Option.map_map]
    generalize decide (j = s.gauge.valuePath) = bp
    generalize decide (j = s.gauge.valueText) = bt
    cases bp <;> cases bt <;> cases s.dom[j]? <;> simp [updateNode, hc]

theorem update_gauge (rt : Runtime K) (s : State K) (v : K) (c : Option String) :
    (update rt s v c).gauge = s.gauge := rfl

theorem update_length (rt : Runtime K) (s : State K) (v : K) (c : Option String) :
    (update rt s v c).dom.length = s.dom.length := by
  unfold update
  cases truthy c <;> simp [setTextContent, setStroke, setAttribute, length_modifyNode]


theorem render_host (rt : Runtime K) (dom : Dom) (el : Nat) (cfg : Config K)
    (hel : el < dom.length) (nd : Node) (hnd : dom[el]? = some nd) (hch : nd.children = []) :
    (render rt dom el cfg).dom[el]? =
      some { nd with
        attributes := storeAttr nd.attributes "viewBox" "0 0 200 200"
        children := [dom.length, dom.length + 1, dom.length + 2] } := by
  have h1 : el ≠ dom.length := by omega
  have h2 : el ≠ dom.length + 1 := by omega
  have h3 : el ≠ dom.length + 2 := by omega
  have h4 : el < dom.length + 1 := by omega
  have h5 : el < dom.length + 2 := by omega
  unfold render
  simp only [createElementNS]
  simp only [getElem?_update, getElem?_setAttribute, getElem?_appendChild, length_setAttribute,
    length_appendChild, List.getElem?_append, List.length_append, List.length_singleton]
  simp [Nat.add_assoc, hel, h1, h2, h3, h4, h5, h1.symm, h2.symm, h3.symm, hnd, hch,
    Nat.lt_succ_of_lt, updateNode]

theorem render_dial (rt : Runtime K) (dom : Dom) (el : Nat) (cfg : Config K)
    (hel : el < dom.length) :
    (render rt dom el cfg).dom[dom.length]? =
      some { namespaceURI := svgNS, tagName := "path",
             attributes := [("class", "dial"),
               ("d", getArcPath rt 100 100 cfg.radius cfg.dialStartAngle cfg.dialEndAngle)],
             stroke := "", textContent := "", children := [] } := by
  have h1 : el ≠ dom.length := by omega
  have h2 : el ≠ dom.length + 1 := by omega
  have h3 : el ≠ dom.length + 2 := by omega
  have h4 : el < dom.length + 1 := by omega
  have h5 : el < dom.length + 2 := by omega
  unfold render
  simp only [createElementNS]
  simp only [getElem?_update, getElem?_setAttribute, getElem?_appendChild, length_setAttribute,
    length_appendChild, List.getElem?_append, List.length_append, List.length_singleton]
  simp [Nat.add_assoc, hel, h1, h2, h3, h4, h5, h1.symm, h2.symm, h3.symm,
    Nat.lt_succ_of_lt, updateNode, storeAttr]

theorem render_valuePath (rt : Runtime K) (dom : Dom) (el : Nat) (cfg : Config K)
    (hel : el < dom.length) :
    (render rt dom el cfg).dom[dom.length + 1]? =
      some { namespaceURI := svgNS, tagName := "path",
             attributes := [("class", "value"),
               ("d", getArcPath rt 100 100 cfg.radius cfg.dialStartAngle
                  (getAngle cfg cfg.value cfg.max))],
             stroke := "", textContent := "", children := [] } := by
  have h1 : el ≠ dom.length := by omega
  have h2 : el ≠ dom.length + 1 := by omega
  have h3 : el ≠ dom.length + 2 := by omega
  have h4 : el < dom.length + 1 := by omega
  have h5 : el < dom.length + 2 := by omega
  unfold render
  simp only [createElementNS]
  simp only [getElem?_update, getElem?_setAttribute, getElem?_appendChild, length_setAttribute,
    length_appendChild, List.getElem?_append, List.length_append, List.length_singleton]
  simp [Nat.add_assoc, hel, h1, h2, h3, h4, h5, h1.symm, h2.symm, h3.symm,
    Nat.lt_succ_of_lt, updateNode, storeAttr, truthy]

theorem render_valueText (rt : Runtime K) (dom : Dom) (el : Nat) (cfg : Config K)
    (hel : el < dom.length) :
    (render rt dom el cfg).dom[dom.length + 2]? =
      some { namespaceURI := svgNS, tagName := "text",
             attributes := [("x", rt.toStr 100), ("y", rt.toStr (100 + 10)),
               ("class", "value-text"), ("text-anchor", "middle"),
               ("alignment-baseline", "middle")],
             stroke := "", textContent := cfg.label cfg.value, children := [] } := by
  have h1 : el ≠ dom.length := by omega
  have h2 : el ≠ dom.length + 1 := by omega
  have h3 : el ≠ dom.length + 2 := by omega
  have h4 : el < dom.length + 1 := by omega
  have h5 : el < dom.length + 2 := by omega
  unfold render
  simp only [createElementNS]
  simp only [getElem?_update, getElem?_setAttribute, getElem?_appendChild, length_setAttribute,
    length_appendChild, List.getElem?_append, List.length_append, List.length_singleton]
  simp [Nat.add_assoc, hel, h1, h2, h3, h4, h5, h1.symm, h2.symm, h3.symm,
    Nat.lt_succ_of_lt, updateNode, storeAttr, truthy]

theorem render_length (rt : Runtime K) (dom : Dom) (el : Nat) (cfg : Config K) :
    (render rt dom el cfg).dom.length = dom.length + 3 := by
  unfold render
  simp only [createElementNS]
  rw [update_length]
  simp [length_setAttribute, length_appendChild]

theorem render_gauge (rt : Runtime K) (dom : Dom) (el : Nat) (cfg : Config K) :
    (render rt dom el cfg).gauge =
      { element := el, config := cfg, valuePath := dom.length + 1,
        valueText := dom.length + 2 } := by
  unfold render
  simp only [createElementNS]
  rw [update_gauge]
  simp [length_setAttribute, length_appendChild]

end Update

section Reachable

variable {K : Type} [LinearOrderedField K]

theorem constructed_render (rt : Runtime K) (dom : Dom) (el : Nat) (cfg : Config K)
    (hel : el < dom.length) : Constructed rt dom el cfg (render rt dom el cfg) where
  gauge := render_gauge rt dom el cfg
  length := render_length rt dom el cfg
  frame := fun _ _ _ => rfl
  valuePath := ⟨_, _, render_valuePath rt dom el cfg hel⟩
  valueText := ⟨_, render_valueText rt dom el cfg hel⟩

theorem constructed_update (rt : Runtime K) (dom : Dom) (el : Nat) (cfg : Config K)
    (s : State K) (h : Constructed rt dom el cfg s) (v : K) (c : Option String) :
    Constructed rt dom el cfg (update rt s v c) where
  gauge := by rw [update_gauge, h.gauge]
  length := by rw [update_length, h.length]
  frame := by
    intro j h1 h2
    rw [getElem?_update, h.gauge, ← h.frame j h1 h2]
    cases s.dom[j]? <;> simp [updateNode, h1, h2]
  valuePath := by
    obtain ⟨p, st, hp⟩ := h.valuePath
    rw [getElem?_update, h.gauge, hp]
    cases hc : truthy c <;> simp [updateNode, strokeNode, hc, storeAttr, svgNS]
  valueText := by
    obtain ⟨t, ht⟩ := h.valueText
    rw [getElem?_update, h.gauge, ht]
    simp [updateNode, svgNS]

theorem constructed_updates (rt : Runtime K) (dom : Dom) (el : Nat) (cfg : Config K)
    (us : List (K × Option String)) :
    ∀ s : State K, Constructed rt dom el cfg s →
      Constructed rt dom el cfg (updates rt s us) := by
  induction us with
  | nil => intro s h; exact h
  | cons u rest ih =>
    intro s h
    obtain ⟨v, c⟩ := u
    exact ih _ (constructed_update rt dom el cfg s h v c)

theorem state_eq {K : Type} (a b : State K) (hd : a.dom = b.dom) (hg : a.gauge = b.gauge) :
    a = b := by
  cases a
  cases b
  simp_all

theorem update_update_same (rt : Runtime K) (s : State K) (v : K) (c : Option String) :
    update rt (update rt s v c) v c = update rt s v c := by
  refine state_eq _ _ ?_ rfl
  apply List.ext_getElem?
  intro j
  rw [getElem?_update, update_gauge, getElem?_update, Option.map_map]
  cases s.dom[j]? with
  | none => rfl
  | some n => simp [updateNode_idem]

theorem getStroke_update (rt : Runtime K) (s : State K) (v : K) (c : Option String) :
    getStroke (update rt s v c).dom s.gauge.valuePath =
      (getStroke s.dom s.gauge.valuePath).map
        (fun old => if truthy c then strokeValue rt.cssPaint (c.getD "") old else old) := by
  unfold getStroke
  rw [getElem?_update, Option.map_map, Option.map_map]
  cases s.dom[s.gauge.valuePath]? with
  | none => rfl
  | some n =>
    cases hc : truthy c <;> cases decide (s.gauge.valuePath = s.gauge.valueText) <;>
      simp [updateNode, strokeNode, hc]

theorem constructed_of_constructor [FloorRing K] (rt : Runtime K) (dom : Dom) (el : Nat)
    (config : ConfigArg K) (us : List (K × Option String)) (hel : el < dom.length) :
    Constructed rt dom el (mergeConfig (defaultConfig rt) config)
      (updates rt (SVGGauge.constructor rt dom el config) us) :=
  constructed_updates rt dom el _ us _ (constructed_render rt dom el _ hel)

end Reachable

section Gauge

variable {K : Type} [LinearOrderedField K] [FloorRing K]

/-- C6: for a gauge built by the constructor and updated any number of times,
`update v c` makes the value path's `d` attribute equal to
`getArcPath 100 100 radius dialStartAngle (getAngle v max)` and the text content
equal to `label v`; the dial element (with its `d` attribute), every attribute of
the text element (so its `x` and `y`), the gauge's configuration and every element
other than the value path and the text are as before the call. -/
theorem update_effect (rt : Runtime K) (dom : Dom) (el : Nat) (config : ConfigArg K)
    (us : List (K × Option String)) (s : State K) (v : K) (c : Option String)
    (hel : el < dom.length)
    (hs : s = updates rt (SVGGauge.constructor rt dom el config) us) :
    getAttribute (update rt s v c).dom s.gauge.valuePath "d"
        = some (getArcPath rt 100 100 s.gauge.config.radius s.gauge.config.dialStartAngle
            (getAngle s.gauge.config v s.gauge.config.max))
      ∧ getTextContent (update rt s v c).dom s.gauge.valueText = some (s.gauge.config.label v)
      ∧ getAttribute s.dom dom.length "class" = some "dial"
      ∧ getAttribute s.dom dom.length "d"
        = some (getArcPath rt 100 100 s.gauge.config.radius s.gauge.config.dialStartAngle
            s.gauge.config.dialEndAngle)
      ∧ (update rt s v c).dom[dom.length]? = s.dom[dom.length]?
      ∧ getAttribute (update rt s v c).dom dom.length "d" = getAttribute s.dom dom.length "d"
      ∧ (∀ name, getAttribute (update rt s v c).dom s.gauge.valueText name
          = getAttribute s.dom s.gauge.valueText name)
      ∧ getAttribute (update rt s v c).dom s.gauge.valueText "x" = some (rt.toStr 100)
      ∧ getAttribute (update rt s v c).dom s.gauge.valueText "y" = some (rt.toStr 110)
      ∧ (update rt s v c).gauge.config = s.gauge.config
      ∧ (∀ j, j ≠ s.gauge.valuePath → j ≠ s.gauge.valueText →
          (update rt s v c).dom[j]? = s.dom[j]?) := by
  have h := constructed_of_constructor rt dom el config us hel
  rw [← hs] at h
  have h' := constructed_update rt dom el _ s h v c
  obtain ⟨p, st, hp⟩ := h.valuePath
  obtain ⟨t, ht⟩ := h.valueText
  have hn1 : dom.length ≠ dom.length + 1 := by omega
  have hn2 : dom.length ≠ dom.length + 2 := by omega
  have hdial : s.dom[dom.length]? = _ :=
    (h.frame _ hn1 hn2).trans (render_dial rt dom el _ hel)
  have hdial' : (update rt s v c).dom[dom.length]? = _ :=
    (h'.frame _ hn1 hn2).trans (render_dial rt dom el _ hel)
  have hten : (100 : K) + 10 = 110 := by norm_num
  have hg := h.gauge
  refine ⟨?_, ?_, ?_, ?_, ?_, ?_, ?_, ?_, ?_, rfl, ?_⟩
  · unfold getAttribute
    rw [getElem?_update, hg, hp]
    cases hc : truthy c <;> simp [updateNode, hc, storeAttr, lookupAttr]
  · unfold getTextContent
    rw [getElem?_update, hg, ht]
    simp [updateNode]
  · unfold getAttribute
    rw [hdial]
    simp [lookupAttr]
  · unfold getAttribute
    rw [hdial, hg]
    simp [lookupAttr]
  · rw [hdial, hdial']
  · unfold getAttribute
    rw [hdial, hdial']
  · intro name
    unfold getAttribute
    rw [getElem?_update, hg, ht]
    simp [updateNode]
  · unfold getAttribute
    rw [getElem?_update, hg, ht]
    simp [updateNode, lookupAttr]
  · unfold getAttribute
    rw [getElem?_update, hg, ht]
    simp [updateNode, lookupAttr, hten]
  · intro j h1 h2
    rw [getElem?_update]
    cases s.dom[j]? <;> simp [updateNode, h1, h2]

/-- Witness of C6: the default gauge on `sampleDom`, after `update(50, 'red')`,
updated with `update(75)`. -/
theorem update_effect_witness :
    getAttribute (update sampleRuntime (updates sampleRuntime sampleGauge [(50, some "red")])
        75 none).dom 2 "d"
        = some (getArcPath sampleRuntime 100 100 80 135
            (getAngle (defaultConfig sampleRuntime) 75 100))
      ∧ getTextContent (update sampleRuntime
          (updates sampleRuntime sampleGauge [(50, some "red")]) 75 none).dom 3
        = some ((defaultConfig sampleRuntime).label 75) := by
  have h := update_effect sampleRuntime sampleDom 0 {} [(50, some "red")]
    (updates sampleRuntime sampleGauge [(50, some "red")]) 75 none (by decide) rfl
  exact ⟨h.1, h.2.1⟩

/-- C7 (amended): for a gauge built by the constructor and updated any number of
times, if the colour argument is provided, is not the empty string and is a valid
CSS paint value, the value arc's stroke after `update v c` is that colour, held
in the serialised form the style setter gives it; if the colour is omitted, is
the empty string, or is not a valid CSS paint value, the stroke after the call
equals the stroke before it. -/
theorem update_stroke (rt : Runtime K) (dom : Dom) (el : Nat) (config : ConfigArg K)
    (us : List (K × Option String)) (s : State K) (v : K) (c : Option String)
    (hel : el < dom.length)
    (hs : s = updates rt (SVGGauge.constructor rt dom el config) us) :
    (∀ color paint, c = some color → color ≠ "" → rt.cssPaint color = some paint →
        getStroke (update rt s v c).dom s.gauge.valuePath = some paint)
      ∧ (∀ color, c = some color → color ≠ "" → rt.cssPaint color = none →
        getStroke (update rt s v c).dom s.gauge.valuePath = getStroke s.dom s.gauge.valuePath)
      ∧ (c = none →
        getStroke (update rt s v c).dom s.gauge.valuePath = getStroke s.dom s.gauge.valuePath)
      ∧ (c = some "" →
        getStroke (update rt s v c).dom s.gauge.valuePath = getStroke s.dom s.gauge.valuePath)
      ∧ ∃ before, getStroke s.dom s.gauge.valuePath = some before := by
  have h := constructed_of_constructor rt dom el config us hel
  rw [← hs] at h
  obtain ⟨p, st, hp⟩ := h.valuePath
  have hbefore : getStroke s.dom s.gauge.valuePath = some st := by
    unfold getStroke
    rw [h.gauge, hp]
    rfl
  refine ⟨?_, ?_, ?_, ?_, st, hbefore⟩
  · intro color paint hc hne hpaint
    rw [getStroke_update, hbefore, hc]
    simp [truthy, hne, strokeValue, hpaint]
  · intro color hc hne hpaint
    rw [getStroke_update, hbefore, hc]
    simp [truthy, hne, strokeValue, hpaint]
  · intro hc
    rw [getStroke_update, hbefore, hc]
    simp [truthy]
  · intro hc
    rw [getStroke_update, hbefore, hc]
    simp [truthy]

/-- Witness of C7: `update(75, '#fd5d93')` on the default gauge sets the stroke,
which reads back as `rgb(253, 93, 147)`. -/
theorem update_stroke_witness :
    getStroke (update sampleRuntime sampleGauge 75 (some "#fd5d93")).dom
      sampleGauge.gauge.valuePath = some "rgb(253, 93, 147)" :=
  (update_stroke sampleRuntime sampleDom 0 {} [] sampleGauge 75 (some "#fd5d93")
    (by decide) rfl).1 "#fd5d93" "rgb(253, 93, 147)" rfl (by decide) (by decide)

/-- C7, as stated, fails when the colour provided is the empty string or is not
a valid CSS paint value: after `update(50, '#fd5d93')`, the calls `update(50, '')`
and `update(50, 'notacolor')` both leave the stroke of `'#fd5d93'`, which is not
the colour passed. -/
theorem update_empty_color_counterexample :
    getStroke
        (update sampleRuntime (update sampleRuntime sampleGauge 50 (some "#fd5d93")) 50
          (some "")).dom sampleGauge.gauge.valuePath = some "rgb(253, 93, 147)"
      ∧ getStroke
        (update sampleRuntime (update sampleRuntime sampleGauge 50 (some "#fd5d93")) 50
          (some "")).dom sampleGauge.gauge.valuePath ≠ some ""
      ∧ getStroke
        (update sampleRuntime (update sampleRuntime sampleGauge 50 (some "#fd5d93")) 50
          (some "notacolor")).dom sampleGauge.gauge.valuePath = some "rgb(253, 93, 147)"
      ∧ getStroke
        (update sampleRuntime (update sampleRuntime sampleGauge 50 (some "#fd5d93")) 50
          (some "notacolor")).dom sampleGauge.gauge.valuePath ≠ some "notacolor" := by
  have h := constructed_of_constructor sampleRuntime sampleDom 0 {} [] (by decide)
  obtain ⟨p, st, hp⟩ := h.valuePath
  have hvp : sampleGauge.gauge.valuePath = sampleDom.length + 1 := by
    have hg := h.gauge
    exact congrArg SVGGauge.valuePath hg
  have h0 : getStroke sampleGauge.dom sampleGauge.gauge.valuePath = some st := by
    unfold getStroke
    rw [hvp]
    exact congrArg (Option.map fun n => n.stroke) hp
  have hpaint : sampleRuntime.cssPaint "#fd5d93" = some "rgb(253, 93, 147)" := by decide
  have hbad : sampleRuntime.cssPaint "notacolor" = none := by decide
  have h1 : getStroke (update sampleRuntime sampleGauge 50 (some "#fd5d93")).dom
      sampleGauge.gauge.valuePath = some "rgb(253, 93, 147)" := by
    rw [getStroke_update, h0]
    simp [truthy, strokeValue, hpaint]
  have h2 : getStroke
      (update sampleRuntime (update sampleRuntime sampleGauge 50 (some "#fd5d93")) 50
        (some "")).dom sampleGauge.gauge.valuePath = some "rgb(253, 93, 147)" := by
    have := getStroke_update sampleRuntime
      (update sampleRuntime sampleGauge 50 (some "#fd5d93")) 50 (some "")
    rw [update_gauge, h1] at this
    rw [this]
    simp [truthy]
  have h3 : getStroke
      (update sampleRuntime (update sampleRuntime sampleGauge 50 (some "#fd5d93")) 50
        (some "notacolor")).dom sampleGauge.gauge.valuePath = some "rgb(253, 93, 147)" := by
    have := getStroke_update sampleRuntime
      (update sampleRuntime sampleGauge 50 (some "#fd5d93")) 50 (some "notacolor")
    rw [update_gauge, h1] at this
    rw [this]
    simp [truthy, strokeValue, hbad]
  exact ⟨h2, by rw [h2]; decide, h3, by rw [h3]; decide⟩

end Gauge

section Idempotence

variable {K : Type} [LinearOrderedField K]

/-- C8: `update` is idempotent: a second `update v c` right after the first
leaves the whole state, and so the value-path data, the stroke and the text
content, as the first call left them. -/
theorem update_idempotent (rt : Runtime K) (s : State K) (v : K) (c : Option String) :
    update rt (update rt s v c) v c = update rt s v c
      ∧ getAttribute (update rt (update rt s v c) v c).dom s.gauge.valuePath "d"
        = getAttribute (update rt s v c).dom s.gauge.valuePath "d"
      ∧ getStroke (update rt (update rt s v c) v c).dom s.gauge.valuePath
        = getStroke (update rt s v c).dom s.gauge.valuePath
      ∧ getTextContent (update rt (update rt s v c) v c).dom s.gauge.valueText
        = getTextContent (update rt s v c).dom s.gauge.valueText := by
  have h := update_update_same rt s v c
  refine ⟨h, ?_, ?_, ?_⟩ <;> rw [h]

end Idempotence

section Invariant

variable {K : Type} [LinearOrderedField K] [FloorRing K]

/-- C9: constructing a gauge on a host element without children appends, in this
order, one dial path, one value path and one text element (the text at `x = 100`,
`y = 110`); after any sequence of `update` calls the document still has exactly
the three new elements and the host's child list is still those three in that
order. -/
theorem node_count_invariant (rt : Runtime K) (dom : Dom) (el : Nat) (config : ConfigArg K)
    (us : List (K × Option String)) (s : State K)
    (hel : el < dom.length) (hhost : getChildren dom el = some [])
    (hs : s = updates rt (SVGGauge.constructor rt dom el config) us) :
    s.dom.length = dom.length + 3
      ∧ getChildren s.dom el = some [dom.length, dom.length + 1, dom.length + 2]
      ∧ getTag s.dom dom.length = some "path"
      ∧ getAttribute s.dom dom.length "class" = some "dial"
      ∧ getTag s.dom (dom.length + 1) = some "path"
      ∧ getAttribute s.dom (dom.length + 1) "class" = some "value"
      ∧ getTag s.dom (dom.length + 2) = some "text"
      ∧ getAttribute s.dom (dom.length + 2) "class" = some "value-text"
      ∧ getAttribute s.dom (dom.length + 2) "x" = some (rt.toStr 100)
      ∧ getAttribute s.dom (dom.length + 2) "y" = some (rt.toStr 110)
      ∧ s.gauge.valuePath = dom.length + 1
      ∧ s.gauge.valueText = dom.length + 2 := by
  have h := constructed_of_constructor rt dom el config us hel
  rw [← hs] at h
  obtain ⟨p, st, hp⟩ := h.valuePath
  obtain ⟨t, ht⟩ := h.valueText
  have hn1 : dom.length ≠ dom.length + 1 := by omega
  have hn2 : dom.length ≠ dom.length + 2 := by omega
  have hdial := (h.frame _ hn1 hn2).trans (render_dial rt dom el _ hel)
  have hten : (100 : K) + 10 = 110 := by norm_num
  have hhost' : ∃ nd, dom[el]? = some nd ∧ nd.children = [] := by
    unfold getChildren at hhost
    cases hnd : dom[el]? with
    | none => rw [hnd] at hhost; cases hhost
    | some nd =>
      rw [hnd] at hhost
      exact ⟨nd, rfl, by simpa using hhost⟩
  obtain ⟨nd, hnd, hch⟩ := hhost'
  have hel1 : el ≠ dom.length + 1 := by omega
  have hel2 : el ≠ dom.length + 2 := by omega
  have hroot := (h.frame _ hel1 hel2).trans (render_host rt dom el _ hel nd hnd hch)
  refine ⟨h.length, ?_, ?_, ?_, ?_, ?_, ?_, ?_, ?_, ?_, ?_, ?_⟩
  · unfold getChildren
    rw [hroot]
    rfl
  · unfold getTag
    rw [hdial]
    rfl
  · unfold getAttribute
    rw [hdial]
    simp [lookupAttr]
  · unfold getTag
    rw [hp]
    rfl
  · unfold getAttribute
    rw [hp]
    simp [lookupAttr]
  · unfold getTag
    rw [ht]
    rfl
  · unfold getAttribute
    rw [ht]
    simp [lookupAttr]
  · unfold getAttribute
    rw [ht]
    simp [lookupAttr]
  · unfold getAttribute
    rw [ht]
    simp [lookupAttr, hten]
  · rw [h.gauge]
  · rw [h.gauge]

/-- Witness of C9: the default gauge on `sampleDom` after three updates. -/
theorem node_count_invariant_witness :
    (updates sampleRuntime sampleGauge
        [(10, none), (95, some "#fd5d93"), (95, some "#fd5d93")]).dom.length = 4
      ∧ getChildren (updates sampleRuntime sampleGauge
        [(10, none), (95, some "#fd5d93"), (95, some "#fd5d93")]).dom 0 = some [1, 2, 3] := by
  have h := node_count_invariant sampleRuntime sampleDom 0 {}
    [(10, none), (95, some "#fd5d93"), (95, some "#fd5d93")]
    (updates sampleRuntime sampleGauge [(10, none), (95, some "#fd5d93"), (95, some "#fd5d93")])
    (by decide) (by decide) rfl
  exact ⟨h.1, h.2.1⟩

end Invariant

section FullScale

/-- Over the reals a full turn does not move the point of an angle. -/
theorem polarToCartesian_add_360 (toStr : ℝ → String) (css : String → Option String)
    (cx cy r a : ℝ) :
    polarToCartesian ⟨Real.cos, Real.sin, Real.pi, toStr, css⟩ cx cy r (a + 360)
      = polarToCartesian ⟨Real.cos, Real.sin, Real.pi, toStr, css⟩ cx cy r a := by
  have h : (a + 360 - 90) * Real.pi / 180 = (a - 90) * Real.pi / 180 + 2 * Real.pi := by ring
  simp only [polarToCartesian, h, Real.cos_add_two_pi, Real.sin_add_two_pi]

/-- At full scale `getAngle` returns the end angle, plus one turn on a wrapped
dial. -/
theorem getAngle_full_scale {K : Type} [LinearOrderedField K] (config : Config K)
    (hm : config.max ≠ 0) :
    getAngle config config.max config.max =
      if config.dialEndAngle - config.dialStartAngle < 0 then config.dialEndAngle + 360
      else config.dialEndAngle := by
  unfold getAngle
  rw [div_self hm]
  by_cases h : config.dialEndAngle - config.dialStartAngle < 0
  · simp only [h, if_true]; ring
  · simp only [h, if_false]; ring

/-- The values `getArcPath` computes for the full-scale value arc are those it
computes for the dial. -/
theorem getArcPathLocals_full_scale (toStr : ℝ → String) (css : String → Option String)
    (config : Config ℝ) (x y : ℝ)
    (he0 : 0 ≤ config.dialEndAngle) (hs : config.dialStartAngle < 360)
    (hm : config.max ≠ 0) :
    getArcPathLocals ⟨Real.cos, Real.sin, Real.pi, toStr, css⟩ x y config.radius
        config.dialStartAngle (getAngle config config.max config.max)
      = getArcPathLocals ⟨Real.cos, Real.sin, Real.pi, toStr, css⟩ x y config.radius
        config.dialStartAngle config.dialEndAngle := by
  rw [getAngle_full_scale config hm]
  by_cases h : config.dialEndAngle - config.dialStartAngle < 0
  · have h' : ¬ (config.dialEndAngle - config.dialStartAngle + 360 < 0) := by
      intro hlt
      linarith
    have hd : config.dialEndAngle + 360 - config.dialStartAngle
        = config.dialEndAngle - config.dialStartAngle + 360 := by ring
    simp only [h, if_true]
    unfold getArcPathLocals
    simp only [h, h', if_true, if_false, polarToCartesian_add_360, hd]
  · simp only [h, if_false]

/-- C10: for every configuration with both dial angles in `[0, 360)` and
`max ≠ 0`, over the reals the value arc of `update(max)` has the move-to point,
the final point and the large-arc flag of the background dial (so the same path
string), also on a wrapped dial, where `getAngle max max` is the end angle plus
360; in a gauge rendered with that configuration the value path's `d` attribute
after `update(max)` equals the dial's. -/
theorem full_scale_reaches_dial_end (toStr : ℝ → String) (css : String → Option String)
    (config : Config ℝ) (dom : Dom)
    (el : Nat) (us : List (ℝ × Option String)) (s : State ℝ) (c : Option String)
    (hs0 : 0 ≤ config.dialStartAngle) (hs : config.dialStartAngle < 360)
    (he0 : 0 ≤ config.dialEndAngle) (he : config.dialEndAngle < 360)
    (hm : config.max ≠ 0) (hel : el < dom.length)
    (hst : s = updates ⟨Real.cos, Real.sin, Real.pi, toStr, css⟩
      (render ⟨Real.cos, Real.sin, Real.pi, toStr, css⟩ dom el config) us) :
    (getArcPathLocals ⟨Real.cos, Real.sin, Real.pi, toStr, css⟩ 100 100 config.radius
          config.dialStartAngle (getAngle config config.max config.max)).start
        = (getArcPathLocals ⟨Real.cos, Real.sin, Real.pi, toStr, css⟩ 100 100 config.radius
          config.dialStartAngle config.dialEndAngle).start
      ∧ (getArcPathLocals ⟨Real.cos, Real.sin, Real.pi, toStr, css⟩ 100 100 config.radius
          config.dialStartAngle (getAngle config config.max config.max)).stop
        = (getArcPathLocals ⟨Real.cos, Real.sin, Real.pi, toStr, css⟩ 100 100 config.radius
          config.dialStartAngle config.dialEndAngle).stop
      ∧ (getArcPathLocals ⟨Real.cos, Real.sin, Real.pi, toStr, css⟩ 100 100 config.radius
          config.dialStartAngle (getAngle config config.max config.max)).largeArc
        = (getArcPathLocals ⟨Real.cos, Real.sin, Real.pi, toStr, css⟩ 100 100 config.radius
          config.dialStartAngle config.dialEndAngle).largeArc
      ∧ getArcPath ⟨Real.cos, Real.sin, Real.pi, toStr, css⟩ 100 100 config.radius
          config.dialStartAngle (getAngle config config.max config.max)
        = getArcPath ⟨Real.cos, Real.sin, Real.pi, toStr, css⟩ 100 100 config.radius
          config.dialStartAngle config.dialEndAngle
      ∧ (config.dialEndAngle < config.dialStartAngle →
          getAngle config config.max config.max = config.dialEndAngle + 360)
      ∧ (config.dialStartAngle ≤ config.dialEndAngle →
          getAngle config config.max config.max = config.dialEndAngle)
      ∧ getAttribute (update ⟨Real.cos, Real.sin, Real.pi, toStr, css⟩ s config.max c).dom
          s.gauge.valuePath "d"
        = getAttribute (update ⟨Real.cos, Real.sin, Real.pi, toStr, css⟩ s config.max c).dom
          dom.length "d"
      ∧ getAttribute (update ⟨Real.cos, Real.sin, Real.pi, toStr, css⟩ s config.max c).dom
          dom.length "class" = some "dial" := by
  have _ := hs0
  have _ := he
  have hl := getArcPathLocals_full_scale toStr css config 100 100 he0 hs hm
  have hpath : getArcPath ⟨Real.cos, Real.sin, Real.pi, toStr, css⟩ 100 100 config.radius
      config.dialStartAngle (getAngle config config.max config.max)
      = getArcPath ⟨Real.cos, Real.sin, Real.pi, toStr, css⟩ 100 100 config.radius
        config.dialStartAngle config.dialEndAngle := by
    unfold getArcPath
    rw [hl]
  have h := constructed_updates ⟨Real.cos, Real.sin, Real.pi, toStr, css⟩ dom el config us _
    (constructed_render ⟨Real.cos, Real.sin, Real.pi, toStr, css⟩ dom el config hel)
  rw [← hst] at h
  have h' := constructed_update _ dom el config s h config.max c
  obtain ⟨p, st, hp⟩ := h.valuePath
  have hn1 : dom.length ≠ dom.length + 1 := by omega
  have hn2 : dom.length ≠ dom.length + 2 := by omega
  have hdial := (h'.frame _ hn1 hn2).trans (render_dial _ dom el config hel)
  refine ⟨by rw [hl], by rw [hl], by rw [hl], hpath, ?_, ?_, ?_, ?_⟩
  · intro hlt
    rw [getAngle_full_scale config hm, if_pos (by linarith)]
  · intro hle
    rw [getAngle_full_scale config hm, if_neg (by linarith)]
  · unfold getAttribute
    rw [hdial, getElem?_update, h.gauge, hp]
    cases hc : truthy c <;> simp [updateNode, hc, storeAttr, lookupAttr, hpath]
  · unfold getAttribute
    rw [hdial]
    simp [lookupAttr]

/-- Witness of C10: the dial 135 to 45 with `max = 100`, radius 80, rendered on
`sampleDom`. -/
theorem full_scale_reaches_dial_end_witness :
    getArcPath ⟨Real.cos, Real.sin, Real.pi, fun _ => "n", fun _ => none⟩ 100 100 80 135
        (getAngle (Config.mk 100 0 135 45 80 (fun _ => "")) 100 100)
      = getArcPath ⟨Real.cos, Real.sin, Real.pi, fun _ => "n", fun _ => none⟩ 100 100 80 135 45
      ∧ getAngle (Config.mk (100 : ℝ) 0 135 45 80 (fun _ => "")) 100 100 = 45 + 360 := by
  have h := full_scale_reaches_dial_end (fun _ => "n") (fun _ => none)
    (Config.mk 100 0 135 45 80 (fun _ => "")) sampleDom 0 []
    (render ⟨Real.cos, Real.sin, Real.pi, fun _ => "n", fun _ => none⟩ sampleDom 0
      (Config.mk 100 0 135 45 80 (fun _ => ""))) none
    (by norm_num) (by norm_num) (by norm_num) (by norm_num) (by norm_num) (by decide) rfl
  exact ⟨h.2.2.2.1, h.2.2.2.2.1 (by norm_num)⟩

end FullScale

section EndToEnd

variable {K : Type} [LinearOrderedField K] [FloorRing K]

/-- The default label rounds 75 to itself. -/
theorem mathRound_75 : mathRound (75 : K) = 75 := by
  unfold mathRound
  rw [Int.floor_eq_iff]
  constructor <;> norm_num

/-- C11: for a gauge constructed with `max = 100`, `dialStartAngle = 135`,
`dialEndAngle = 45`, `radius = 80` and the default label, on a runtime that
prints the number 75 as `75`, `update(75, '#fd5d93')` computes the value arc from
start angle 135 and end angle `135 + 0.75 * 270 = 337.5`; the wrapped diff is
202.5 and the path string written to the value path reads
`M ex ey A 80 80 0 1 0 sx sy`, large-arc flag `1`, from the point of 337.5 to the
point of 135; the value arc's stroke is set to the colour `#fd5d93` (the style
object holds it in the serialised form the CSS parser gives that string) and the
label text is `75`. -/
theorem end_to_end_update_75 (rt : Runtime K) (dom : Dom) (el : Nat)
    (us : List (K × Option String)) (s : State K)
    (hel : el < dom.length) (hstr : rt.toStr 75 = "75")
    (hs : s = updates rt (SVGGauge.constructor rt dom el (exampleConfigArg K)) us) :
    getAngle s.gauge.config 75 s.gauge.config.max = 135 + 75 / 100 * 270
      ∧ getAngle s.gauge.config 75 s.gauge.config.max = 675 / 2
      ∧ getAttribute (update rt s 75 (some "#fd5d93")).dom s.gauge.valuePath "d"
        = some (getArcPath rt 100 100 s.gauge.config.radius s.gauge.config.dialStartAngle
            (getAngle s.gauge.config 75 s.gauge.config.max))
      ∧ getAttribute (update rt s 75 (some "#fd5d93")).dom s.gauge.valuePath "d"
        = some ("M " ++ rt.toStr (polarToCartesian rt 100 100 80 (675 / 2)).x ++ " "
            ++ rt.toStr (polarToCartesian rt 100 100 80 (675 / 2)).y ++ " A " ++ rt.toStr 80
            ++ " " ++ rt.toStr 80 ++ " 0 " ++ "1" ++ " 0 "
            ++ rt.toStr (polarToCartesian rt 100 100 80 135).x ++ " "
            ++ rt.toStr (polarToCartesian rt 100 100 80 135).y)
      ∧ (getArcPathLocals rt 100 100 80 135 (675 / 2)).diff = 405 / 2
      ∧ (getArcPathLocals rt 100 100 80 135 (675 / 2)).largeArc = "1"
      ∧ getStroke (update rt s 75 (some "#fd5d93")).dom s.gauge.valuePath
        = (getStroke s.dom s.gauge.valuePath).map (strokeValue rt.cssPaint "#fd5d93")
      ∧ (∀ paint, rt.cssPaint "#fd5d93" = some paint →
          getStroke (update rt s 75 (some "#fd5d93")).dom s.gauge.valuePath = some paint)
      ∧ getTextContent (update rt s 75 (some "#fd5d93")).dom s.gauge.valueText = some "75" := by
  have h := constructed_of_constructor rt dom el (exampleConfigArg K) us hel
  rw [← hs] at h
  obtain ⟨p, st, hp⟩ := h.valuePath
  obtain ⟨t, ht⟩ := h.valueText
  have hg := h.gauge
  have hangle : getAngle s.gauge.config 75 s.gauge.config.max = 675 / 2 := by
    rw [hg]
    simp only [getAngle, mergeConfig, exampleConfigArg, Option.getD_some]
    norm_num
  have hdiff : (getArcPathLocals rt 100 100 80 135 (675 / 2)).diff = 405 / 2 := by
    simp only [getArcPathLocals]
    norm_num
  have hflag : (getArcPathLocals rt 100 100 80 135 (675 / 2)).largeArc = "1" := by
    simp only [getArcPathLocals]
    norm_num
  have hbefore : getStroke s.dom s.gauge.valuePath = some st := by
    unfold getStroke
    rw [hg, hp]
    rfl
  have hd : getAttribute (update rt s 75 (some "#fd5d93")).dom s.gauge.valuePath "d"
      = some (getArcPath rt 100 100 s.gauge.config.radius s.gauge.config.dialStartAngle
          (getAngle s.gauge.config 75 s.gauge.config.max)) := by
    unfold getAttribute
    rw [getElem?_update, hg, hp]
    simp [updateNode, strokeNode, truthy, storeAttr, lookupAttr]
  have hcfg : s.gauge.config.radius = 80 ∧ s.gauge.config.dialStartAngle = 135 := by
    rw [hg]
    simp [mergeConfig, exampleConfigArg]
  have hsel : (if (180 : K) < (if (0 : K) ≤ 675 / 2 - 135 then 675 / 2 - 135
      else 675 / 2 - 135 + 360) then "1" else "0") = "1" := by norm_num
  refine ⟨?_, hangle, hd, ?_, hdiff, hflag, ?_, ?_, ?_⟩
  · rw [hangle]
    norm_num
  · rw [hd, hangle, hcfg.1, hcfg.2, getArcPath_eq_string, hsel]
  · rw [getStroke_update, hbefore]
    simp [truthy]
  · intro paint hpaint
    rw [getStroke_update, hbefore]
    simp [truthy, strokeValue, hpaint]
  · unfold getTextContent
    rw [getElem?_update, hg, ht]
    simp [updateNode, mergeConfig, exampleConfigArg, defaultConfig, mathRound_75, hstr]

/-- Witness of C11: the example gauge built on `sampleDom` with the decimal
runtime, whose CSS parser serialises `#fd5d93` as `rgb(253, 93, 147)`. -/
theorem end_to_end_update_75_witness :
    decimalRuntime.toStr 75 = "75"
      ∧ decimalRuntime.cssPaint "#fd5d93" = some "rgb(253, 93, 147)"
      ∧ getStroke (update decimalRuntime
          (SVGGauge.constructor decimalRuntime sampleDom 0 (exampleConfigArg ℚ)) 75
          (some "#fd5d93")).dom 2 = some "rgb(253, 93, 147)"
      ∧ getTextContent (update decimalRuntime
          (SVGGauge.constructor decimalRuntime sampleDom 0 (exampleConfigArg ℚ)) 75
          (some "#fd5d93")).dom 3 = some "75" := by
  have hstr : decimalRuntime.toStr 75 = "75" := by
    simp [decimalRuntime]
    rfl
  have hpaint : decimalRuntime.cssPaint "#fd5d93" = some "rgb(253, 93, 147)" := by decide
  have h := end_to_end_update_75 decimalRuntime sampleDom 0 []
    (SVGGauge.constructor decimalRuntime sampleDom 0 (exampleConfigArg ℚ)) (by decide) hstr rfl
  exact ⟨hstr, hpaint, h.2.2.2.2.2.2.2.1 _ hpaint, h.2.2.2.2.2.2.2.2⟩

end EndToEnd

section Poller

variable {K : Type} [LinearOrderedField K]

/-- C12: the colour `updateStatus` passes to the usage gauge is green `#00f2c3`
for a usage below 60, yellow `#ffc107` from 60 up to but excluding 80 and red
`#fd5d93` from 80 on; the colour it passes to the temperature gauge for a
temperature that is not `null` is green below 75, yellow from 75 up to but
excluding 90 and red from 90 on; the three colours are distinct, so exactly one
is chosen in each case. -/
theorem threshold_colour_policy (u t : K) :
    (cpuUsageUpdateArgs u).1 = u
      ∧ (cpuUsageUpdateArgs u).2
        = some (if u < 60 then "#00f2c3" else if u < 80 then "#ffc107" else "#fd5d93")
      ∧ ((cpuUsageUpdateArgs u).2 = some "#00f2c3" ↔ u < 60)
      ∧ ((cpuUsageUpdateArgs u).2 = some "#ffc107" ↔ 60 ≤ u ∧ u < 80)
      ∧ ((cpuUsageUpdateArgs u).2 = some "#fd5d93" ↔ 80 ≤ u)
      ∧ (cpuTempUpdateArgs (some t)).1 = t
      ∧ (cpuTempUpdateArgs (some t)).2
        = some (if t < 75 then "#00f2c3" else if t < 90 then "#ffc107" else "#fd5d93")
      ∧ ((cpuTempUpdateArgs (some t)).2 = some "#00f2c3" ↔ t < 75)
      ∧ ((cpuTempUpdateArgs (some t)).2 = some "#ffc107" ↔ 75 ≤ t ∧ t < 90)
      ∧ ((cpuTempUpdateArgs (some t)).2 = some "#fd5d93" ↔ 90 ≤ t)
      ∧ "#00f2c3" ≠ "#ffc107" ∧ "#00f2c3" ≠ "#fd5d93" ∧ "#ffc107" ≠ "#fd5d93" := by
  have hu : (cpuUsageUpdateArgs u).2
      = some (if u < 60 then "#00f2c3" else if u < 80 then "#ffc107" else "#fd5d93") := by
    unfold cpuUsageUpdateArgs
    by_cases h80 : u ≥ 80
    · have h1 : ¬ u < 60 := by intro h; linarith
      have h2 : ¬ u < 80 := not_lt.mpr h80
      simp only [h80, h1, h2, if_true, if_false]
    · by_cases h60 : u ≥ 60
      · have h1 : ¬ u < 60 := not_lt.mpr h60
        have h2 : u < 80 := not_le.mp h80
        simp only [h80, h60, h1, h2, if_true, if_false]
      · have h1 : u < 60 := not_le.mp h60
        simp only [h80, h60, h1, if_true, if_false]
  have ht : (cpuTempUpdateArgs (some t)).2
      = some (if t < 75 then "#00f2c3" else if t < 90 then "#ffc107" else "#fd5d93") := by
    unfold cpuTempUpdateArgs
    by_cases h90 : t ≥ 90
    · have h1 : ¬ t < 75 := by intro h; linarith
      have h2 : ¬ t < 90 := not_lt.mpr h90
      simp only [h90, h1, h2, if_true, if_false]
    · by_cases h75 : t ≥ 75
      · have h1 : ¬ t < 75 := not_lt.mpr h75
        have h2 : t < 90 := not_le.mp h90
        simp only [h90, h75, h1, h2, if_true, if_false]
      · have h1 : t < 75 := not_le.mp h75
        simp only [h90, h75, h1, if_true, if_false]
  have key : ∀ (x lo hi : K), lo ≤ hi →
      ((some (if x < lo then "#00f2c3" else if x < hi then "#ffc107" else "#fd5d93")
          = some "#00f2c3" ↔ x < lo)
        ∧ (some (if x < lo then "#00f2c3" else if x < hi then "#ffc107" else "#fd5d93")
          = some "#ffc107" ↔ lo ≤ x ∧ x < hi)
        ∧ (some (if x < lo then "#00f2c3" else if x < hi then "#ffc107" else "#fd5d93")
          = some "#fd5d93" ↔ hi ≤ x)) := by
    intro x lo hi hle
    by_cases h1 : x < lo
    · have h2 : ¬ hi ≤ x := by intro h; linarith
      have h3 : ¬ lo ≤ x := not_le.mpr h1
      simp [h1, h2, h3]
    · by_cases h2 : x < hi
      · simp [h1, h2, not_lt.mp h1]
      · simp [h1, h2, not_lt.mp h2]
  obtain ⟨ku1, ku2, ku3⟩ := key u 60 80 (by norm_num)
  obtain ⟨kt1, kt2, kt3⟩ := key t 75 90 (by norm_num)
  refine ⟨rfl, hu, ?_, ?_, ?_, rfl, ht, ?_, ?_, ?_, by decide, by decide, by decide⟩
  · rw [hu]; exact ku1
  · rw [hu]; exact ku2
  · rw [hu]; exact ku3
  · rw [ht]; exact kt1
  · rw [ht]; exact kt2
  · rw [ht]; exact kt3

end Poller

section OneTurn

variable {K : Type} [LinearOrderedField K]

/-- C13 (amended): with both dial angles in `[0, 360)`, `m > 0` and `0 ≤ v ≤ m`,
the start angle that `render` and `update` pass to `getArcPath` and the end angle
that `render` passes lie in `[0, 360)`; the end angle `getAngle v m` that `update`
passes lies in `[s, s + 360)`, less than one full turn past the start angle; and
in both calls the difference wrapped by `getArcPath` lies in `[0, 360)`, so adding
360 once suffices (in `update` the difference is non-negative and nothing is
added). -/
theorem angles_within_one_turn (rt : Runtime K) (config : Config K) (x y r v m : K)
    (hs0 : 0 ≤ config.dialStartAngle) (hs : config.dialStartAngle < 360)
    (he0 : 0 ≤ config.dialEndAngle) (he : config.dialEndAngle < 360)
    (hm : 0 < m) (hv0 : 0 ≤ v) (hv : v ≤ m) :
    (0 ≤ config.dialStartAngle ∧ config.dialStartAngle < 360)
      ∧ (0 ≤ config.dialEndAngle ∧ config.dialEndAngle < 360)
      ∧ config.dialStartAngle ≤ getAngle config v m
      ∧ getAngle config v m < config.dialStartAngle + 360
      ∧ 0 ≤ (getArcPathLocals rt x y r config.dialStartAngle config.dialEndAngle).diff
      ∧ (getArcPathLocals rt x y r config.dialStartAngle config.dialEndAngle).diff < 360
      ∧ (getArcPathLocals rt x y r config.dialStartAngle (getAngle config v m)).diff
        = getAngle config v m - config.dialStartAngle
      ∧ 0 ≤ (getArcPathLocals rt x y r config.dialStartAngle (getAngle config v m)).diff
      ∧ (getArcPathLocals rt x y r config.dialStartAngle (getAngle config v m)).diff
        < 360 := by
  obtain ⟨hr0, hr1⟩ := wrapped_range_bounds _ _ hs0 hs he0 he
  have hq0 : 0 ≤ v / m := div_nonneg hv0 hm.le
  have hq1 : v / m ≤ 1 := (div_le_one hm).mpr hv
  have hlo : config.dialStartAngle ≤ getAngle config v m := by
    unfold getAngle
    have := mul_nonneg hq0 hr0
    linarith
  have hhi : getAngle config v m < config.dialStartAngle + 360 := by
    unfold getAngle
    have := mul_le_of_le_one_left hr0 hq1
    linarith
  have hnw : ¬ (getAngle config v m - config.dialStartAngle < 0) := by
    intro h
    linarith
  have hd : (getArcPathLocals rt x y r config.dialStartAngle (getAngle config v m)).diff
      = getAngle config v m - config.dialStartAngle := by
    simp only [getArcPathLocals, if_neg hnw]
  refine ⟨⟨hs0, hs⟩, ⟨he0, he⟩, hlo, hhi, hr0, hr1, hd, ?_, ?_⟩
  · rw [hd]
    linarith
  · rw [hd]
    linarith

/-- Witness of C13 on the default dial at `v = 90`, `m = 100`. -/
theorem angles_within_one_turn_witness :
    (135 : ℚ) ≤ getAngle (defaultConfig sampleRuntime) 90 100
      ∧ getAngle (defaultConfig sampleRuntime) 90 100 < 135 + 360
      ∧ (getArcPathLocals sampleRuntime 100 100 80 135
          (getAngle (defaultConfig sampleRuntime) 90 100)).diff < 360 := by
  have h := angles_within_one_turn sampleRuntime (defaultConfig sampleRuntime) 100 100 80 90 100
    (by norm_num [defaultConfig]) (by norm_num [defaultConfig])
    (by norm_num [defaultConfig]) (by norm_num [defaultConfig])
    (by norm_num) (by norm_num) (by norm_num)
  exact ⟨h.2.2.1, h.2.2.2.1, h.2.2.2.2.2.2.2.2⟩

/-- C13, as stated, fails on the default dial (start 135, end 45): at full scale,
`v = m = 100`, the end angle `update` passes to `getArcPath` is
`getAngle 100 100 = 405`, which is not below 360. -/
theorem getAngle_exceeds_one_turn_counterexample :
    (0 ≤ (defaultConfig sampleRuntime).dialStartAngle
        ∧ (defaultConfig sampleRuntime).dialStartAngle < 360)
      ∧ (0 ≤ (defaultConfig sampleRuntime).dialEndAngle
        ∧ (defaultConfig sampleRuntime).dialEndAngle < 360)
      ∧ (0 : ℚ) < 100
      ∧ getAngle (defaultConfig sampleRuntime) 100 100 = 405
      ∧ ¬ (getAngle (defaultConfig sampleRuntime) 100 100 < 360) := by
  have h : getAngle (defaultConfig sampleRuntime) 100 100 = 405 := by
    simp only [getAngle, defaultConfig]
    norm_num
  refine ⟨?_, ?_, by norm_num, h, ?_⟩
  · constructor <;> norm_num [defaultConfig]
  · constructor <;> norm_num [defaultConfig]
  · rw [h]
    norm_num

end OneTurn

